import Mathlib

/-!
# ICM42670 driver shim: embedding and verified properties

The driver (icm42670.c) and the polling application (main.c) are embedded as
state-passing functions over a `World`: the sensor subsystem's future answers
(readiness, fetch status, channel values, attribute-set status) together with
the trace of every subsystem call, sleep and console line made so far.
-/

namespace ICM42670

/-! ## Data model -/

/-- Zephyr `struct sensor_value`: integer part `val1`, fractional part `val2`
(in millionths), both `int32_t`. -/
structure sensor_value where
  val1 : Int
  val2 : Int
deriving DecidableEq, Repr

/-- The two `enum sensor_channel` values the driver uses. -/
inductive sensor_channel where
  | SENSOR_CHAN_ACCEL_XYZ
  | SENSOR_CHAN_GYRO_XYZ
deriving DecidableEq, Repr

/-- The one `enum sensor_attribute` value the driver uses. -/
inductive sensor_attribute where
  | SENSOR_ATTR_SAMPLING_FREQUENCY
deriving DecidableEq, Repr

/-- The header's `struct icm42670_data`; `D` stands for C `double`, whose
values the driver only copies. -/
structure icm42670_data (D : Type) where
  accel_x : D
  accel_y : D
  accel_z : D
  gyro_x : D
  gyro_y : D
  gyro_z : D
deriving DecidableEq, Repr

/-- The `printk` lines of icm42670.c and main.c, with their `%d` arguments. -/
inductive Msg where
  | starting_application
  | device_not_found
  | init_success (attempts : Nat)
  | not_ready_retrying (attempt : Nat) (max : Nat) (delay_ms : Nat)
  | init_failed (max : Nat)
  | fetch_failed (ret : Int)
  | accel_get_failed (ret : Int)
  | gyro_get_failed (ret : Int)
  | accel_rate_failed (ret : Int)
  | gyro_rate_failed (ret : Int)
  | main_init_failed
deriving DecidableEq, Repr

/-- Observable actions, in program order. -/
inductive Event (D : Type) where
  | device_is_ready
  | k_msleep (ms : Nat)
  | k_sleep_msec (ms : Nat)
  | sensor_sample_fetch
  | sensor_channel_get (chan : sensor_channel)
  | sensor_attr_set (chan : sensor_channel) (attr : sensor_attribute) (val : sensor_value)
  | printk (m : Msg)
  | printf_accel (x : D) (y : D) (z : D)
  | printf_gyro (x : D) (y : D) (z : D)
deriving DecidableEq, Repr

/-- Three-axis buffer filled by `sensor_channel_get`. -/
abbrev Axes := sensor_value × sensor_value × sensor_value

/-- The environment and the program's global state.
`ready i`, `fetch i`, `chan_get i`, `attr_set i` are the subsystem's answers to
the i-th next call of that kind (0 is the next one); `to_double` is the
subsystem's `sensor_value_to_double`; `icm42670_dev` records whether the
static device pointer is non-NULL; `trace` lists the actions so far. -/
structure World (D : Type) where
  ready : Nat → Bool
  fetch : Nat → Int
  chan_get : Nat → sensor_channel → Int × Axes
  attr_set : Nat → sensor_channel → sensor_attribute → sensor_value → Int
  to_double : sensor_value → D
  icm42670_dev : Bool
  trace : List (Event D)

variable {D : Type}

/-! ## The sensor subsystem and kernel services -/

@[simp]
def emit (e : Event D) (w : World D) : World D :=
  { w with trace := w.trace ++ [e] }

@[simp]
def printk (m : Msg) (w : World D) : World D := emit (Event.printk m) w

@[simp]
def k_msleep (ms : Nat) (w : World D) : World D := emit (Event.k_msleep ms) w

@[simp]
def k_sleep_msec (ms : Nat) (w : World D) : World D := emit (Event.k_sleep_msec ms) w

@[simp]
def device_is_ready (w : World D) : Bool × World D :=
  (w.ready 0,
   emit Event.device_is_ready { w with ready := fun i => w.ready (i + 1) })

@[simp]
def sensor_sample_fetch (w : World D) : Int × World D :=
  (w.fetch 0,
   emit Event.sensor_sample_fetch { w with fetch := fun i => w.fetch (i + 1) })

@[simp]
def sensor_channel_get (chan : sensor_channel) (w : World D) : (Int × Axes) × World D :=
  (w.chan_get 0 chan,
   emit (Event.sensor_channel_get chan) { w with chan_get := fun i => w.chan_get (i + 1) })

@[simp]
def sensor_attr_set (chan : sensor_channel) (attr : sensor_attribute) (val : sensor_value)
    (w : World D) : Int × World D :=
  (w.attr_set 0 chan attr val,
   emit (Event.sensor_attr_set chan attr val) { w with attr_set := fun i => w.attr_set (i + 1) })

/-! ## icm42670.c -/

def INIT_RETRY_DELAY_MS : Nat := 1000

def MAX_INIT_ATTEMPTS : Nat := 10

/-- The `while (attempts < MAX_INIT_ATTEMPTS)` loop of `icm42670_init` and the
two statements after it, entered with the current value of `attempts`. -/
def init_while (ENODEV : Int) (attempts : Nat) (w : World D) : Int × World D :=
  if attempts < MAX_INIT_ATTEMPTS then
    match device_is_ready w with
    | (true, w1) => (0, printk (Msg.init_success (attempts + 1)) w1)
    | (false, w1) =>
      init_while ENODEV (attempts + 1)
        (k_msleep INIT_RETRY_DELAY_MS
          (printk (Msg.not_ready_retrying (attempts + 1) MAX_INIT_ATTEMPTS INIT_RETRY_DELAY_MS) w1))
  else
    (-ENODEV, printk (Msg.init_failed MAX_INIT_ATTEMPTS) w)
termination_by MAX_INIT_ATTEMPTS - attempts
decreasing_by omega

/-- `icm42670_init`. `ENODEV` is the errno constant of the C library;
`resolved` says whether `DEVICE_DT_GET_ONE` yields a non-NULL device. -/
def icm42670_init (ENODEV : Int) (resolved : Bool) (w : World D) : Int × World D :=
  let w0 : World D := { w with icm42670_dev := resolved }
  if resolved = false then
    (-ENODEV, printk Msg.device_not_found w0)
  else
    init_while ENODEV 0 w0

/-- `fetch_sensor_data`. -/
def fetch_sensor_data (w : World D) : Int × World D :=
  match sensor_sample_fetch w with
  | (ret, w1) =>
    if ret < 0 then
      (ret, printk (Msg.fetch_failed ret) w1)
    else
      (0, w1)

/-- `icm42670_read_all`: the returned record is the content of `*data` after
the call. -/
def icm42670_read_all (data : icm42670_data D) (w : World D) :
    Int × icm42670_data D × World D :=
  match fetch_sensor_data w with
  | (ret, w1) =>
    if ret < 0 then (ret, data, w1) else
    match sensor_channel_get sensor_channel.SENSOR_CHAN_ACCEL_XYZ w1 with
    | ((ret, accel), w2) =>
      if ret < 0 then (ret, data, printk (Msg.accel_get_failed ret) w2) else
      match sensor_channel_get sensor_channel.SENSOR_CHAN_GYRO_XYZ w2 with
      | ((ret, gyro), w3) =>
        if ret < 0 then (ret, data, printk (Msg.gyro_get_failed ret) w3) else
        (0,
         { accel_x := w3.to_double accel.1
           accel_y := w3.to_double accel.2.1
           accel_z := w3.to_double accel.2.2
           gyro_x := w3.to_double gyro.1
           gyro_y := w3.to_double gyro.2.1
           gyro_z := w3.to_double gyro.2.2 },
         w3)

/-- `icm42670_read_accel`. -/
def icm42670_read_accel (data : icm42670_data D) (w : World D) :
    Int × icm42670_data D × World D :=
  match fetch_sensor_data w with
  | (ret, w1) =>
    if ret < 0 then (ret, data, w1) else
    match sensor_channel_get sensor_channel.SENSOR_CHAN_ACCEL_XYZ w1 with
    | ((ret, accel), w2) =>
      if ret < 0 then (ret, data, printk (Msg.accel_get_failed ret) w2) else
      (0,
       { data with
         accel_x := w2.to_double accel.1
         accel_y := w2.to_double accel.2.1
         accel_z := w2.to_double accel.2.2 },
       w2)

/-- `icm42670_read_gyro`. -/
def icm42670_read_gyro (data : icm42670_data D) (w : World D) :
    Int × icm42670_data D × World D :=
  match fetch_sensor_data w with
  | (ret, w1) =>
    if ret < 0 then (ret, data, w1) else
    match sensor_channel_get sensor_channel.SENSOR_CHAN_GYRO_XYZ w1 with
    | ((ret, gyro), w2) =>
      if ret < 0 then (ret, data, printk (Msg.gyro_get_failed ret) w2) else
      (0,
       { data with
         gyro_x := w2.to_double gyro.1
         gyro_y := w2.to_double gyro.2.1
         gyro_z := w2.to_double gyro.2.2 },
       w2)

/-- Value of a `uint16_t` parameter. -/
def uint16_t (n : Nat) : Nat := n % 2 ^ 16

/-- Conversion of an integer to `int32_t` (two's complement wrap). -/
def int32_t (n : Int) : Int := (n + 2 ^ 31) % 2 ^ 32 - 2 ^ 31

/-- `icm42670_set_accel_rate`. -/
def icm42670_set_accel_rate (rate : Nat) (w : World D) : Int × World D :=
  let value : sensor_value := { val1 := int32_t (uint16_t rate), val2 := 0 }
  match sensor_attr_set sensor_channel.SENSOR_CHAN_ACCEL_XYZ
      sensor_attribute.SENSOR_ATTR_SAMPLING_FREQUENCY value w with
  | (ret, w1) =>
    if ret < 0 then
      (ret, printk (Msg.accel_rate_failed ret) w1)
    else
      (0, w1)

/-- `icm42670_set_gyro_rate`. -/
def icm42670_set_gyro_rate (rate : Nat) (w : World D) : Int × World D :=
  let value : sensor_value := { val1 := int32_t (uint16_t rate), val2 := 0 }
  match sensor_attr_set sensor_channel.SENSOR_CHAN_GYRO_XYZ
      sensor_attribute.SENSOR_ATTR_SAMPLING_FREQUENCY value w with
  | (ret, w1) =>
    if ret < 0 then
      (ret, printk (Msg.gyro_rate_failed ret) w1)
    else
      (0, w1)

/-! ## main.c -/

/-- One pass through the body of `while (1)` in `main`. -/
def main_iteration (sensor_data : icm42670_data D) (w : World D) :
    icm42670_data D × World D :=
  match icm42670_read_all sensor_data w with
  | (ret, sensor_data1, w1) =>
    let w2 :=
      if ret = 0 then
        emit (Event.printf_gyro sensor_data1.gyro_x sensor_data1.gyro_y sensor_data1.gyro_z)
          (emit (Event.printf_accel sensor_data1.accel_x sensor_data1.accel_y
            sensor_data1.accel_z) w1)
      else w1
    (sensor_data1, k_sleep_msec 1000 w2)

/-- The first `n` passes of the endless `while (1)` loop. -/
def main_loop : Nat → icm42670_data D → World D → icm42670_data D × World D
  | 0, sensor_data, w => (sensor_data, w)
  | n + 1, sensor_data, w =>
    match main_iteration sensor_data w with
    | (sensor_data1, w1) => main_loop n sensor_data1 w1

/-- `main`, observed until it returns or has completed `n` passes of its
endless loop; the Boolean says whether `main` has returned. `sensor_data` is
the arbitrary initial content of the uninitialised local. -/
def main (ENODEV : Int) (resolved : Bool) (n : Nat) (sensor_data : icm42670_data D)
    (w : World D) : Bool × World D :=
  let w0 := printk Msg.starting_application w
  match icm42670_init ENODEV resolved w0 with
  | (ret, w1) =>
    if ret ≠ 0 then (true, printk Msg.main_init_failed w1) else
    match icm42670_set_accel_rate 100 w1 with
    | (ret, w2) =>
      if ret ≠ 0 then (true, w2) else
      match icm42670_set_gyro_rate 100 w2 with
      | (ret, w3) =>
        if ret ≠ 0 then (true, w3) else
        (false, (main_loop n sensor_data w3).2)

/-! ## Trace measures -/

/-- Number of readiness checks in a trace. -/
def checks (t : List (Event D)) : Nat :=
  t.countP (fun e => match e with | Event.device_is_ready => true | _ => false)

/-- The `k_msleep` durations in a trace, in order. -/
def msleeps : List (Event D) → List Nat
  | [] => []
  | Event.k_msleep ms :: t => ms :: msleeps t
  | _ :: t => msleeps t

/-- Number of sample fetches in a trace. -/
def fetches (t : List (Event D)) : Nat :=
  t.countP (fun e => match e with | Event.sensor_sample_fetch => true | _ => false)

/-- The channels of the channel-get calls in a trace, in order. -/
def channel_gets : List (Event D) → List sensor_channel
  | [] => []
  | Event.sensor_channel_get chan :: t => chan :: channel_gets t
  | _ :: t => channel_gets t

/-- The attribute-set calls in a trace, in order. -/
def attr_sets : List (Event D) → List (sensor_channel × sensor_attribute × sensor_value)
  | [] => []
  | Event.sensor_attr_set chan attr val :: t => (chan, attr, val) :: attr_sets t
  | _ :: t => attr_sets t

/-- Events of `k` failed attempts of the init loop, the first numbered
`attempts + 1`. -/
def retry_events (attempts : Nat) : Nat → List (Event D)
  | 0 => []
  | k + 1 =>
    [Event.device_is_ready,
     Event.printk (Msg.not_ready_retrying (attempts + 1) MAX_INIT_ATTEMPTS INIT_RETRY_DELAY_MS),
     Event.k_msleep INIT_RETRY_DELAY_MS] ++ retry_events (attempts + 1) k

open sensor_channel sensor_attribute

/-! ## Slices of main, further trace measures and example worlds -/

/-- A world over integer-valued doubles in which the device is never ready,
every fetch, channel get and attribute set reports status 0, the channels
hold zeros and conversion takes the integer part. -/
def quiet_world : World Int :=
  { ready := fun _ => false
    fetch := fun _ => 0
    chan_get := fun _ _ => (0, ⟨0, 0⟩, ⟨0, 0⟩, ⟨0, 0⟩)
    attr_set := fun _ _ _ _ => 0
    to_double := fun v => v.val1
    icm42670_dev := false
    trace := [] }

/-- Like `quiet_world`, but the device reports ready on the third check. -/
def ready_on_third : World Int :=
  { quiet_world with ready := fun i => decide (i = 2) }

/-- World for the read examples: the fetch fails with status -5. -/
def fetch_fails : World Int :=
  { quiet_world with fetch := fun _ => -5 }

/-- World for the read examples: the fetch succeeds and every channel get
fails with status -5. -/
def get_fails : World Int :=
  { quiet_world with chan_get := fun _ _ => (-5, ⟨0, 0⟩, ⟨0, 0⟩, ⟨0, 0⟩) }

/-- World for the read examples: the fetch and the first channel get succeed,
the second channel get fails with status -7. -/
def second_get_fails : World Int :=
  { quiet_world with
    chan_get := fun i _ => (if i = 0 then 0 else -7, ⟨1, 0⟩, ⟨-2, 0⟩, ⟨3, 0⟩) }

/-- World for the read examples: everything succeeds; acceleration converts to
(1, -2, 3) and angular rate to (4, -5, 6). -/
def steady_world : World Int :=
  { quiet_world with
    chan_get := fun _ chan =>
      match chan with
      | SENSOR_CHAN_ACCEL_XYZ => (0, ⟨1, 0⟩, ⟨-2, 0⟩, ⟨3, 0⟩)
      | SENSOR_CHAN_GYRO_XYZ => (0, ⟨4, 0⟩, ⟨-5, 0⟩, ⟨6, 0⟩) }

/-- Sample prior content of the caller's record. -/
def old_data : icm42670_data Int :=
  { accel_x := 11, accel_y := 12, accel_z := 13, gyro_x := 14, gyro_y := 15, gyro_z := 16 }

/-- World for the rate examples: every attribute set is rejected with -22. -/
def rejecting_world : World Int :=
  { quiet_world with attr_set := fun _ _ _ _ => -22 }

/-- The `k_sleep(K_MSEC(..))` durations in a trace, in order. -/
def ksleeps : List (Event D) → List Nat
  | [] => []
  | Event.k_sleep_msec ms :: t => ms :: ksleeps t
  | _ :: t => ksleeps t

/-- The `printf` lines in a trace, in order. -/
def printf_lines : List (Event D) → List (Event D)
  | [] => []
  | Event.printf_accel x y z :: t => Event.printf_accel x y z :: printf_lines t
  | Event.printf_gyro x y z :: t => Event.printf_gyro x y z :: printf_lines t
  | _ :: t => printf_lines t

/-- The call of `icm42670_init` made by `main`, after the start-up line. -/
def main_init (ENODEV : Int) (resolved : Bool) (w : World D) : Int × World D :=
  icm42670_init ENODEV resolved (printk Msg.starting_application w)

/-- The call `icm42670_set_accel_rate(100)` made by `main` after `main_init`. -/
def main_accel_rate (ENODEV : Int) (resolved : Bool) (w : World D) : Int × World D :=
  icm42670_set_accel_rate 100 (main_init ENODEV resolved w).2

/-- The call `icm42670_set_gyro_rate(100)` made by `main` after
`main_accel_rate`. -/
def main_gyro_rate (ENODEV : Int) (resolved : Bool) (w : World D) : Int × World D :=
  icm42670_set_gyro_rate 100 (main_accel_rate ENODEV resolved w).2

/-- World for the end-to-end example: ready on the third check, every
attribute set accepted, first read good, second fetch failing with -5. -/
def scenario_world : World Int :=
  { quiet_world with
    ready := fun i => decide (i = 2)
    fetch := fun i => if i = 1 then -5 else 0
    chan_get := fun _ chan =>
      match chan with
      | SENSOR_CHAN_ACCEL_XYZ => (0, ⟨1, 0⟩, ⟨-2, 0⟩, ⟨3, 0⟩)
      | SENSOR_CHAN_GYRO_XYZ => (0, ⟨4, 0⟩, ⟨-5, 0⟩, ⟨6, 0⟩) }

/-- World for the loop example: the first read succeeds with acceleration
(1, -2, 3) and angular rate (4, -5, 6); the second fetch fails with -5. -/
def second_fetch_fails : World Int :=
  { steady_world with fetch := fun i => if i = 1 then -5 else 0 }

/-! ## Initialisation loop -/

theorem init_while_ready (ENODEV : Int) :
    ∀ (k attempts : Nat) (w : World D), attempts + k < MAX_INIT_ATTEMPTS →
      (∀ j, j < k → w.ready j = false) → w.ready k = true →
      init_while ENODEV attempts w =
        (0, { w with
              ready := fun i => w.ready (i + (k + 1))
              trace := w.trace ++ (retry_events attempts k ++
                [Event.device_is_ready, Event.printk (Msg.init_success (attempts + k + 1))]) }) := by
  intro k
  induction k with
  | zero =>
    intro attempts w hlt _ hk
    rw [init_while]
    have hlt2 : attempts < MAX_INIT_ATTEMPTS := by omega
    simp [hlt2, hk, retry_events]
  | succ k ih =>
    intro attempts w hlt hfalse hk
    rw [init_while]
    have hlt2 : attempts < MAX_INIT_ATTEMPTS := by omega
    have h0 : w.ready 0 = false := hfalse 0 (by omega)
    simp only [hlt2, if_true, device_is_ready, h0]
    rw [ih (attempts + 1) _ (by omega)
      (by intro j hj; simpa using hfalse (j + 1) (by omega))
      (by simpa using hk)]
    simp [retry_events, Nat.add_assoc, Nat.add_comm 1 k]

theorem init_while_never (ENODEV : Int) :
    ∀ (m attempts : Nat) (w : World D), attempts + m = MAX_INIT_ATTEMPTS →
      (∀ j, j < m → w.ready j = false) →
      init_while ENODEV attempts w =
        (-ENODEV, { w with
              ready := fun i => w.ready (i + m)
              trace := w.trace ++ (retry_events attempts m ++
                [Event.printk (Msg.init_failed MAX_INIT_ATTEMPTS)]) }) := by
  intro m
  induction m with
  | zero =>
    intro attempts w hlt _
    rw [init_while]
    have hlt2 : ¬ attempts < MAX_INIT_ATTEMPTS := by omega
    simp [hlt2, retry_events]
  | succ m ih =>
    intro attempts w hlt hfalse
    rw [init_while]
    have hlt2 : attempts < MAX_INIT_ATTEMPTS := by omega
    have h0 : w.ready 0 = false := hfalse 0 (by omega)
    simp only [hlt2, if_true, device_is_ready, h0]
    rw [ih (attempts + 1) _ (by omega)
      (by intro j hj; simpa using hfalse (j + 1) (by omega))]
    simp [retry_events, Nat.add_assoc, Nat.add_comm 1 m]

/-! ## Trace measures over concatenation -/

theorem checks_append (a b : List (Event D)) : checks (a ++ b) = checks a + checks b := by
  simp [checks]

theorem fetches_append (a b : List (Event D)) : fetches (a ++ b) = fetches a + fetches b := by
  simp [fetches]

theorem msleeps_append (a b : List (Event D)) : msleeps (a ++ b) = msleeps a ++ msleeps b := by
  induction a with
  | nil => simp [msleeps]
  | cons e t ih => cases e <;> simp [msleeps, ih]

theorem channel_gets_append (a b : List (Event D)) :
    channel_gets (a ++ b) = channel_gets a ++ channel_gets b := by
  induction a with
  | nil => simp [channel_gets]
  | cons e t ih => cases e <;> simp [channel_gets, ih]

theorem attr_sets_append (a b : List (Event D)) :
    attr_sets (a ++ b) = attr_sets a ++ attr_sets b := by
  induction a with
  | nil => simp [attr_sets]
  | cons e t ih => cases e <;> simp [attr_sets, ih]

theorem checks_retry_events (k : Nat) :
    ∀ attempts : Nat, checks (retry_events attempts k : List (Event D)) = k := by
  induction k with
  | zero => intro attempts; simp [retry_events, checks]
  | succ k ih =>
    intro attempts
    have h := ih (attempts + 1)
    simp only [checks] at h
    simp [retry_events, checks, h]

theorem msleeps_retry_events (k : Nat) :
    ∀ attempts : Nat,
      msleeps (retry_events attempts k : List (Event D)) = List.replicate k INIT_RETRY_DELAY_MS := by
  induction k with
  | zero => intro attempts; simp [retry_events, msleeps]
  | succ k ih =>
    intro attempts
    simp [retry_events, msleeps, ih (attempts + 1), List.replicate_succ]

theorem fetches_retry_events (k : Nat) :
    ∀ attempts : Nat, fetches (retry_events attempts k : List (Event D)) = 0 := by
  induction k with
  | zero => intro attempts; simp [retry_events, fetches]
  | succ k ih =>
    intro attempts
    have h := ih (attempts + 1)
    simp only [fetches] at h
    simp [retry_events, fetches, h]

theorem channel_gets_retry_events (k : Nat) :
    ∀ attempts : Nat, channel_gets (retry_events attempts k : List (Event D)) = [] := by
  induction k with
  | zero => intro attempts; simp [retry_events, channel_gets]
  | succ k ih => intro attempts; simp [retry_events, channel_gets, ih (attempts + 1)]

theorem attr_sets_retry_events (k : Nat) :
    ∀ attempts : Nat, attr_sets (retry_events attempts k : List (Event D)) = [] := by
  induction k with
  | zero => intro attempts; simp [retry_events, attr_sets]
  | succ k ih => intro attempts; simp [retry_events, attr_sets, ih (attempts + 1)]

/-! ## icm42670_init on a resolved device -/

theorem init_ready_at (ENODEV : Int) (w : World D) (k : Nat) (hk : k < MAX_INIT_ATTEMPTS)
    (hready : w.ready k = true) (hfalse : ∀ j, j < k → w.ready j = false) :
    icm42670_init ENODEV true w =
      (0, { w with
            ready := fun i => w.ready (i + (k + 1))
            icm42670_dev := true
            trace := w.trace ++ (retry_events 0 k ++
              [Event.device_is_ready, Event.printk (Msg.init_success (k + 1))]) }) := by
  unfold icm42670_init
  simp only [Bool.true_eq_false, if_false]
  rw [init_while_ready ENODEV k 0 { w with icm42670_dev := true } (by omega) hfalse hready]
  simp

theorem init_never_ready (ENODEV : Int) (w : World D)
    (hfalse : ∀ j, j < MAX_INIT_ATTEMPTS → w.ready j = false) :
    icm42670_init ENODEV true w =
      (-ENODEV, { w with
            ready := fun i => w.ready (i + MAX_INIT_ATTEMPTS)
            icm42670_dev := true
            trace := w.trace ++ (retry_events 0 MAX_INIT_ATTEMPTS ++
              [Event.printk (Msg.init_failed MAX_INIT_ATTEMPTS)]) }) := by
  unfold icm42670_init
  simp only [Bool.true_eq_false, if_false]
  rw [init_while_never ENODEV MAX_INIT_ATTEMPTS 0 { w with icm42670_dev := true } (by omega)
    hfalse]

theorem exists_first_ready (ready : Nat → Bool) (n : Nat)
    (h : ∃ i, i < n ∧ ready i = true) :
    ∃ k, k < n ∧ ready k = true ∧ ∀ j, j < k → ready j = false := by
  classical
  refine ⟨Nat.find h, (Nat.find_spec h).1, (Nat.find_spec h).2, ?_⟩
  intro j hj
  have hmin := Nat.find_min h hj
  by_contra hne
  exact hmin ⟨by have := (Nat.find_spec h).1; omega, by simpa using hne⟩

/-! ## C1 -/

/-- C1: on a resolved device, icm42670_init returns 0 exactly when one of the
first 10 readiness checks reports ready; if the first ready outcome is at
check number k+1 (k < 10) it returns 0 after exactly k+1 checks; if the first
10 checks all report not ready it returns a negative code after exactly 10
checks; it never performs more than 10 checks. -/
theorem C1_init_ready_within_ten (ENODEV : Int) (hE : 0 < ENODEV) (w : World D) :
    ((icm42670_init ENODEV true w).1 = 0 ↔ ∃ i, i < 10 ∧ w.ready i = true) ∧
    (∀ k, k < 10 → w.ready k = true → (∀ j, j < k → w.ready j = false) →
      (icm42670_init ENODEV true w).1 = 0 ∧
      checks (icm42670_init ENODEV true w).2.trace = checks w.trace + (k + 1)) ∧
    ((∀ i, i < 10 → w.ready i = false) →
      (icm42670_init ENODEV true w).1 < 0 ∧
      checks (icm42670_init ENODEV true w).2.trace = checks w.trace + 10) ∧
    checks (icm42670_init ENODEV true w).2.trace ≤ checks w.trace + 10 := by
  have hA : ∀ k, k < 10 → w.ready k = true → (∀ j, j < k → w.ready j = false) →
      (icm42670_init ENODEV true w).1 = 0 ∧
      checks (icm42670_init ENODEV true w).2.trace = checks w.trace + (k + 1) := by
    intro k hk hr hf
    rw [init_ready_at ENODEV w k hk hr hf]
    refine ⟨rfl, ?_⟩
    simp only [checks_append, checks_retry_events]
    simp [checks]
  have hB : (∀ i, i < 10 → w.ready i = false) →
      (icm42670_init ENODEV true w).1 < 0 ∧
      checks (icm42670_init ENODEV true w).2.trace = checks w.trace + 10 := by
    intro hf
    rw [init_never_ready ENODEV w hf]
    refine ⟨by simpa using hE, ?_⟩
    simp only [checks_append, checks_retry_events]
    simp [checks, MAX_INIT_ATTEMPTS]
  refine ⟨⟨?_, ?_⟩, hA, hB, ?_⟩
  · intro h0
    by_contra hne
    have hf : ∀ i, i < 10 → w.ready i = false := by
      intro i hi
      by_contra hr
      exact hne ⟨i, hi, by simpa using hr⟩
    have := (hB hf).1
    omega
  · intro h
    obtain ⟨k, hk, hr, hf⟩ := exists_first_ready w.ready 10 h
    exact (hA k hk hr hf).1
  · by_cases h : ∃ i, i < 10 ∧ w.ready i = true
    · obtain ⟨k, hk, hr, hf⟩ := exists_first_ready w.ready 10 h
      have := (hA k hk hr hf).2
      omega
    · have hf : ∀ i, i < 10 → w.ready i = false := by
        intro i hi
        by_contra hr
        exact h ⟨i, hi, by simpa using hr⟩
      have := (hB hf).2
      omega

/-- Witness for C1: with ENODEV = 19 and a device that is ready on the third
check. -/
theorem C1_init_ready_within_ten_witness :
    (0 : Int) < 19 ∧
    ((icm42670_init 19 true ready_on_third).1 = 0 ↔
      ∃ i, i < 10 ∧ ready_on_third.ready i = true) ∧
    (icm42670_init 19 true ready_on_third).1 = 0 ∧
    checks (icm42670_init 19 true ready_on_third).2.trace = checks ready_on_third.trace + 3 :=
  ⟨by decide, (C1_init_ready_within_ten 19 (by decide) ready_on_third).1,
    (C1_init_ready_within_ten 19 (by decide) ready_on_third).2.1 2 (by decide) (by decide)
      (by decide)⟩

/-! ## C7 and C8: the failure paths of icm42670_init -/

/-- C7 (as stated, refuted): with ENODEV = 19, an unresolved device and a
resolved device whose first 10 readiness checks all fail give the same return
value, -19. -/
theorem C7_same_code_counterexample :
    (icm42670_init 19 false quiet_world).1 = -19 ∧
    (icm42670_init 19 true quiet_world).1 = -19 ∧
    ¬ ((icm42670_init 19 true quiet_world).1 ≠ (icm42670_init 19 false quiet_world).1) := by
  have h2 : (icm42670_init 19 true quiet_world).1 = -19 := by
    rw [init_never_ready 19 quiet_world (by intro j _; rfl)]
  have h1 : (icm42670_init 19 false quiet_world).1 = -19 := by
    simp [icm42670_init]
  exact ⟨h1, h2, by rw [h1, h2]; simp⟩

/-- C7 (amended): both failure causes of icm42670_init give the same return
value, the negative code -ENODEV. When device resolution fails it returns
-ENODEV at once, having made no readiness check and no sleep and printed only
the device-not-found line. When all 10 readiness checks report not ready it
returns -ENODEV as well, its last action being the print of the
failed-after-10-attempts line. The two causes differ in the printed line, not
in the return value. -/
theorem C7_init_failure_codes (ENODEV : Int) (hE : 0 < ENODEV) (w : World D) :
    ((icm42670_init ENODEV false w).1 = -ENODEV ∧
      (icm42670_init ENODEV false w).1 < 0 ∧
      (icm42670_init ENODEV false w).2.trace = w.trace ++ [Event.printk Msg.device_not_found] ∧
      checks (icm42670_init ENODEV false w).2.trace = checks w.trace ∧
      msleeps (icm42670_init ENODEV false w).2.trace = msleeps w.trace) ∧
    ((∀ i, i < 10 → w.ready i = false) →
      (icm42670_init ENODEV true w).1 = -ENODEV ∧
      (icm42670_init ENODEV true w).1 < 0 ∧
      (icm42670_init ENODEV true w).2.trace.getLast? =
        some (Event.printk (Msg.init_failed 10)) ∧
      (icm42670_init ENODEV true w).1 = (icm42670_init ENODEV false w).1) ∧
    Msg.device_not_found ≠ Msg.init_failed 10 := by
  have h1 : icm42670_init ENODEV false w =
      (-ENODEV, { w with icm42670_dev := false
                         trace := w.trace ++ [Event.printk Msg.device_not_found] }) := by
    simp [icm42670_init]
  refine ⟨?_, ?_, by simp⟩
  · rw [h1]
    refine ⟨rfl, by simpa using hE, rfl, ?_, ?_⟩
    · simp [checks]
    · simp [msleeps_append, msleeps]
  · intro hfalse
    rw [init_never_ready ENODEV w hfalse, h1]
    refine ⟨rfl, by simpa using hE, ?_, rfl⟩
    simp [← List.append_assoc, MAX_INIT_ATTEMPTS]

/-- Witness for C7 (amended): ENODEV = 19 and a device that is never ready. -/
theorem C7_init_failure_codes_witness :
    (0 : Int) < 19 ∧ (∀ i, i < 10 → quiet_world.ready i = false) ∧
    (icm42670_init 19 false quiet_world).1 = -19 ∧
    (icm42670_init 19 true quiet_world).1 = -19 ∧
    (icm42670_init 19 true quiet_world).1 = (icm42670_init 19 false quiet_world).1 :=
  ⟨by decide, fun _ _ => rfl,
    (C7_init_failure_codes 19 (by decide) quiet_world).1.1,
    ((C7_init_failure_codes 19 (by decide) quiet_world).2.1 (fun _ _ => rfl)).1,
    ((C7_init_failure_codes 19 (by decide) quiet_world).2.1 (fun _ _ => rfl)).2.2.2⟩

/-- C8 (code evaluated where it departs from the claim): on a resolved device
that is never ready, icm42670_init performs 10 readiness checks and 10 sleeps
of 1000 ms, the tenth sleep following the final check, just before the
failure line. -/
theorem C8_sleep_after_final_check :
    checks (icm42670_init 19 true quiet_world).2.trace = 10 ∧
    msleeps (icm42670_init 19 true quiet_world).2.trace = List.replicate 10 1000 ∧
    (icm42670_init 19 true quiet_world).2.trace.drop 27 =
      [Event.device_is_ready,
       Event.printk (Msg.not_ready_retrying 10 10 1000),
       Event.k_msleep 1000,
       Event.printk (Msg.init_failed 10)] := by
  rw [init_never_ready 19 quiet_world (by intro j _; rfl)]
  refine ⟨?_, ?_, ?_⟩
  · simp only [checks_append, checks_retry_events]
    simp [checks, quiet_world, MAX_INIT_ATTEMPTS]
  · simp only [msleeps_append, msleeps_retry_events]
    simp [msleeps, quiet_world, MAX_INIT_ATTEMPTS, INIT_RETRY_DELAY_MS]
  · simp [quiet_world, retry_events, MAX_INIT_ATTEMPTS, INIT_RETRY_DELAY_MS]

/-! ## The read operations, path by path -/

theorem read_all_fetch_fail (data : icm42670_data D) (w : World D) (h : w.fetch 0 < 0) :
    icm42670_read_all data w =
      (w.fetch 0, data,
       { w with
         fetch := fun i => w.fetch (i + 1)
         trace := w.trace ++
           [Event.sensor_sample_fetch, Event.printk (Msg.fetch_failed (w.fetch 0))] }) := by
  simp [icm42670_read_all, fetch_sensor_data, h]

theorem read_all_accel_fail (data : icm42670_data D) (w : World D) (h0 : 0 ≤ w.fetch 0)
    (h1 : (w.chan_get 0 SENSOR_CHAN_ACCEL_XYZ).1 < 0) :
    icm42670_read_all data w =
      ((w.chan_get 0 SENSOR_CHAN_ACCEL_XYZ).1, data,
       { w with
         fetch := fun i => w.fetch (i + 1)
         chan_get := fun i => w.chan_get (i + 1)
         trace := w.trace ++
           [Event.sensor_sample_fetch, Event.sensor_channel_get SENSOR_CHAN_ACCEL_XYZ,
            Event.printk (Msg.accel_get_failed (w.chan_get 0 SENSOR_CHAN_ACCEL_XYZ).1)] }) := by
  have h0n : ¬ w.fetch 0 < 0 := by omega
  simp [icm42670_read_all, fetch_sensor_data, h0n, h1]

theorem read_all_gyro_fail (data : icm42670_data D) (w : World D) (h0 : 0 ≤ w.fetch 0)
    (h1 : 0 ≤ (w.chan_get 0 SENSOR_CHAN_ACCEL_XYZ).1)
    (h2 : (w.chan_get 1 SENSOR_CHAN_GYRO_XYZ).1 < 0) :
    icm42670_read_all data w =
      ((w.chan_get 1 SENSOR_CHAN_GYRO_XYZ).1, data,
       { w with
         fetch := fun i => w.fetch (i + 1)
         chan_get := fun i => w.chan_get (i + 2)
         trace := w.trace ++
           [Event.sensor_sample_fetch, Event.sensor_channel_get SENSOR_CHAN_ACCEL_XYZ,
            Event.sensor_channel_get SENSOR_CHAN_GYRO_XYZ,
            Event.printk (Msg.gyro_get_failed (w.chan_get 1 SENSOR_CHAN_GYRO_XYZ).1)] }) := by
  have h0n : ¬ w.fetch 0 < 0 := by omega
  have h1n : ¬ (w.chan_get 0 SENSOR_CHAN_ACCEL_XYZ).1 < 0 := by omega
  simp [icm42670_read_all, fetch_sensor_data, h0n, h1n, h2, Nat.add_assoc]

theorem read_all_ok (data : icm42670_data D) (w : World D) (h0 : 0 ≤ w.fetch 0)
    (h1 : 0 ≤ (w.chan_get 0 SENSOR_CHAN_ACCEL_XYZ).1)
    (h2 : 0 ≤ (w.chan_get 1 SENSOR_CHAN_GYRO_XYZ).1) :
    icm42670_read_all data w =
      (0,
       { accel_x := w.to_double (w.chan_get 0 SENSOR_CHAN_ACCEL_XYZ).2.1
         accel_y := w.to_double (w.chan_get 0 SENSOR_CHAN_ACCEL_XYZ).2.2.1
         accel_z := w.to_double (w.chan_get 0 SENSOR_CHAN_ACCEL_XYZ).2.2.2
         gyro_x := w.to_double (w.chan_get 1 SENSOR_CHAN_GYRO_XYZ).2.1
         gyro_y := w.to_double (w.chan_get 1 SENSOR_CHAN_GYRO_XYZ).2.2.1
         gyro_z := w.to_double (w.chan_get 1 SENSOR_CHAN_GYRO_XYZ).2.2.2 },
       { w with
         fetch := fun i => w.fetch (i + 1)
         chan_get := fun i => w.chan_get (i + 2)
         trace := w.trace ++
           [Event.sensor_sample_fetch, Event.sensor_channel_get SENSOR_CHAN_ACCEL_XYZ,
            Event.sensor_channel_get SENSOR_CHAN_GYRO_XYZ] }) := by
  have h0n : ¬ w.fetch 0 < 0 := by omega
  have h1n : ¬ (w.chan_get 0 SENSOR_CHAN_ACCEL_XYZ).1 < 0 := by omega
  have h2n : ¬ (w.chan_get 1 SENSOR_CHAN_GYRO_XYZ).1 < 0 := by omega
  simp [icm42670_read_all, fetch_sensor_data, h0n, h1n, h2n, Nat.add_assoc]

theorem read_accel_fetch_fail (data : icm42670_data D) (w : World D) (h : w.fetch 0 < 0) :
    icm42670_read_accel data w =
      (w.fetch 0, data,
       { w with
         fetch := fun i => w.fetch (i + 1)
         trace := w.trace ++
           [Event.sensor_sample_fetch, Event.printk (Msg.fetch_failed (w.fetch 0))] }) := by
  simp [icm42670_read_accel, fetch_sensor_data, h]

theorem read_accel_get_fail (data : icm42670_data D) (w : World D) (h0 : 0 ≤ w.fetch 0)
    (h1 : (w.chan_get 0 SENSOR_CHAN_ACCEL_XYZ).1 < 0) :
    icm42670_read_accel data w =
      ((w.chan_get 0 SENSOR_CHAN_ACCEL_XYZ).1, data,
       { w with
         fetch := fun i => w.fetch (i + 1)
         chan_get := fun i => w.chan_get (i + 1)
         trace := w.trace ++
           [Event.sensor_sample_fetch, Event.sensor_channel_get SENSOR_CHAN_ACCEL_XYZ,
            Event.printk (Msg.accel_get_failed (w.chan_get 0 SENSOR_CHAN_ACCEL_XYZ).1)] }) := by
  have h0n : ¬ w.fetch 0 < 0 := by omega
  simp [icm42670_read_accel, fetch_sensor_data, h0n, h1]

theorem read_accel_ok (data : icm42670_data D) (w : World D) (h0 : 0 ≤ w.fetch 0)
    (h1 : 0 ≤ (w.chan_get 0 SENSOR_CHAN_ACCEL_XYZ).1) :
    icm42670_read_accel data w =
      (0,
       { data with
         accel_x := w.to_double (w.chan_get 0 SENSOR_CHAN_ACCEL_XYZ).2.1
         accel_y := w.to_double (w.chan_get 0 SENSOR_CHAN_ACCEL_XYZ).2.2.1
         accel_z := w.to_double (w.chan_get 0 SENSOR_CHAN_ACCEL_XYZ).2.2.2 },
       { w with
         fetch := fun i => w.fetch (i + 1)
         chan_get := fun i => w.chan_get (i + 1)
         trace := w.trace ++
           [Event.sensor_sample_fetch, Event.sensor_channel_get SENSOR_CHAN_ACCEL_XYZ] }) := by
  have h0n : ¬ w.fetch 0 < 0 := by omega
  have h1n : ¬ (w.chan_get 0 SENSOR_CHAN_ACCEL_XYZ).1 < 0 := by omega
  simp [icm42670_read_accel, fetch_sensor_data, h0n, h1n]

theorem read_gyro_fetch_fail (data : icm42670_data D) (w : World D) (h : w.fetch 0 < 0) :
    icm42670_read_gyro data w =
      (w.fetch 0, data,
       { w with
         fetch := fun i => w.fetch (i + 1)
         trace := w.trace ++
           [Event.sensor_sample_fetch, Event.printk (Msg.fetch_failed (w.fetch 0))] }) := by
  simp [icm42670_read_gyro, fetch_sensor_data, h]

theorem read_gyro_get_fail (data : icm42670_data D) (w : World D) (h0 : 0 ≤ w.fetch 0)
    (h1 : (w.chan_get 0 SENSOR_CHAN_GYRO_XYZ).1 < 0) :
    icm42670_read_gyro data w =
      ((w.chan_get 0 SENSOR_CHAN_GYRO_XYZ).1, data,
       { w with
         fetch := fun i => w.fetch (i + 1)
         chan_get := fun i => w.chan_get (i + 1)
         trace := w.trace ++
           [Event.sensor_sample_fetch, Event.sensor_channel_get SENSOR_CHAN_GYRO_XYZ,
            Event.printk (Msg.gyro_get_failed (w.chan_get 0 SENSOR_CHAN_GYRO_XYZ).1)] }) := by
  have h0n : ¬ w.fetch 0 < 0 := by omega
  simp [icm42670_read_gyro, fetch_sensor_data, h0n, h1]

theorem read_gyro_ok (data : icm42670_data D) (w : World D) (h0 : 0 ≤ w.fetch 0)
    (h1 : 0 ≤ (w.chan_get 0 SENSOR_CHAN_GYRO_XYZ).1) :
    icm42670_read_gyro data w =
      (0,
       { data with
         gyro_x := w.to_double (w.chan_get 0 SENSOR_CHAN_GYRO_XYZ).2.1
         gyro_y := w.to_double (w.chan_get 0 SENSOR_CHAN_GYRO_XYZ).2.2.1
         gyro_z := w.to_double (w.chan_get 0 SENSOR_CHAN_GYRO_XYZ).2.2.2 },
       { w with
         fetch := fun i => w.fetch (i + 1)
         chan_get := fun i => w.chan_get (i + 1)
         trace := w.trace ++
           [Event.sensor_sample_fetch, Event.sensor_channel_get SENSOR_CHAN_GYRO_XYZ] }) := by
  have h0n : ¬ w.fetch 0 < 0 := by omega
  have h1n : ¬ (w.chan_get 0 SENSOR_CHAN_GYRO_XYZ).1 < 0 := by omega
  simp [icm42670_read_gyro, fetch_sensor_data, h0n, h1n]

/-! ## C2 to C5: contracts of the read operations -/

/-- C2: each read operation stops at the first failing subsystem call and
returns its status unchanged. If the sample fetch returns a negative status,
read_all, read_accel and read_gyro each return that status, make no
channel-get call and make exactly one fetch call. In read_all, a negative
acceleration channel-get status is returned after one fetch and one
channel get (acceleration), with no gyroscope channel get; a negative
gyroscope status is returned after one get of each channel. Likewise
read_accel and read_gyro return their channel get's negative status after a
single fetch and a single get. -/
theorem C2_reads_short_circuit (data : icm42670_data D) (w : World D) :
    (w.fetch 0 < 0 →
      ((icm42670_read_all data w).1 = w.fetch 0 ∧
        channel_gets (icm42670_read_all data w).2.2.trace = channel_gets w.trace ∧
        fetches (icm42670_read_all data w).2.2.trace = fetches w.trace + 1) ∧
      ((icm42670_read_accel data w).1 = w.fetch 0 ∧
        channel_gets (icm42670_read_accel data w).2.2.trace = channel_gets w.trace ∧
        fetches (icm42670_read_accel data w).2.2.trace = fetches w.trace + 1) ∧
      ((icm42670_read_gyro data w).1 = w.fetch 0 ∧
        channel_gets (icm42670_read_gyro data w).2.2.trace = channel_gets w.trace ∧
        fetches (icm42670_read_gyro data w).2.2.trace = fetches w.trace + 1)) ∧
    (0 ≤ w.fetch 0 → (w.chan_get 0 SENSOR_CHAN_ACCEL_XYZ).1 < 0 →
      ((icm42670_read_all data w).1 = (w.chan_get 0 SENSOR_CHAN_ACCEL_XYZ).1 ∧
        channel_gets (icm42670_read_all data w).2.2.trace =
          channel_gets w.trace ++ [SENSOR_CHAN_ACCEL_XYZ] ∧
        fetches (icm42670_read_all data w).2.2.trace = fetches w.trace + 1) ∧
      ((icm42670_read_accel data w).1 = (w.chan_get 0 SENSOR_CHAN_ACCEL_XYZ).1 ∧
        channel_gets (icm42670_read_accel data w).2.2.trace =
          channel_gets w.trace ++ [SENSOR_CHAN_ACCEL_XYZ] ∧
        fetches (icm42670_read_accel data w).2.2.trace = fetches w.trace + 1)) ∧
    (0 ≤ w.fetch 0 → 0 ≤ (w.chan_get 0 SENSOR_CHAN_ACCEL_XYZ).1 →
      (w.chan_get 1 SENSOR_CHAN_GYRO_XYZ).1 < 0 →
      (icm42670_read_all data w).1 = (w.chan_get 1 SENSOR_CHAN_GYRO_XYZ).1 ∧
      channel_gets (icm42670_read_all data w).2.2.trace =
        channel_gets w.trace ++ [SENSOR_CHAN_ACCEL_XYZ, SENSOR_CHAN_GYRO_XYZ] ∧
      fetches (icm42670_read_all data w).2.2.trace = fetches w.trace + 1) ∧
    (0 ≤ w.fetch 0 → (w.chan_get 0 SENSOR_CHAN_GYRO_XYZ).1 < 0 →
      (icm42670_read_gyro data w).1 = (w.chan_get 0 SENSOR_CHAN_GYRO_XYZ).1 ∧
      channel_gets (icm42670_read_gyro data w).2.2.trace =
        channel_gets w.trace ++ [SENSOR_CHAN_GYRO_XYZ] ∧
      fetches (icm42670_read_gyro data w).2.2.trace = fetches w.trace + 1) := by
  refine ⟨?_, ?_, ?_, ?_⟩
  · intro h
    rw [read_all_fetch_fail data w h, read_accel_fetch_fail data w h,
      read_gyro_fetch_fail data w h]
    simp [channel_gets_append, channel_gets, fetches]
  · intro h0 h1
    rw [read_all_accel_fail data w h0 h1, read_accel_get_fail data w h0 h1]
    simp [channel_gets_append, channel_gets, fetches]
  · intro h0 h1 h2
    rw [read_all_gyro_fail data w h0 h1 h2]
    simp [channel_gets_append, channel_gets, fetches]
  · intro h0 h1
    rw [read_gyro_get_fail data w h0 h1]
    simp [channel_gets_append, channel_gets, fetches]

/-- Witness for C2: a fetch failing with -5 is returned by read_all with no
channel get, and an acceleration get failing with -5 after a good fetch is
returned by read_all after the single acceleration get. -/
theorem C2_reads_short_circuit_witness :
    ((icm42670_read_all old_data fetch_fails).1 = -5 ∧
      channel_gets (icm42670_read_all old_data fetch_fails).2.2.trace = [] ∧
      fetches (icm42670_read_all old_data fetch_fails).2.2.trace = 1) ∧
    ((icm42670_read_all old_data get_fails).1 = -5 ∧
      channel_gets (icm42670_read_all old_data get_fails).2.2.trace = [SENSOR_CHAN_ACCEL_XYZ] ∧
      fetches (icm42670_read_all old_data get_fails).2.2.trace = 1) :=
  ⟨((C2_reads_short_circuit old_data fetch_fails).1 (by decide)).1,
    ((C2_reads_short_circuit old_data get_fails).2.1 (by decide) (by decide)).1⟩

/-- C3: whatever the prior content of the record and whatever the subsystem
answers, icm42670_read_accel leaves gyro_x, gyro_y and gyro_z as they were and
icm42670_read_gyro leaves accel_x, accel_y and accel_z as they were, on
success and on failure alike. -/
theorem C3_subset_read_keeps_other_fields (data : icm42670_data D) (w : World D) :
    ((icm42670_read_accel data w).2.1.gyro_x = data.gyro_x ∧
      (icm42670_read_accel data w).2.1.gyro_y = data.gyro_y ∧
      (icm42670_read_accel data w).2.1.gyro_z = data.gyro_z) ∧
    ((icm42670_read_gyro data w).2.1.accel_x = data.accel_x ∧
      (icm42670_read_gyro data w).2.1.accel_y = data.accel_y ∧
      (icm42670_read_gyro data w).2.1.accel_z = data.accel_z) := by
  constructor
  · by_cases h0 : w.fetch 0 < 0
    · rw [read_accel_fetch_fail data w h0]
      exact ⟨rfl, rfl, rfl⟩
    · by_cases h1 : (w.chan_get 0 SENSOR_CHAN_ACCEL_XYZ).1 < 0
      · rw [read_accel_get_fail data w (by omega) h1]
        exact ⟨rfl, rfl, rfl⟩
      · rw [read_accel_ok data w (by omega) (by omega)]
        exact ⟨rfl, rfl, rfl⟩
  · by_cases h0 : w.fetch 0 < 0
    · rw [read_gyro_fetch_fail data w h0]
      exact ⟨rfl, rfl, rfl⟩
    · by_cases h1 : (w.chan_get 0 SENSOR_CHAN_GYRO_XYZ).1 < 0
      · rw [read_gyro_get_fail data w (by omega) h1]
        exact ⟨rfl, rfl, rfl⟩
      · rw [read_gyro_ok data w (by omega) (by omega)]
        exact ⟨rfl, rfl, rfl⟩

/-- C4: a read that returns a non-zero result has returned a negative one and
has left all six fields of the record as they were, for icm42670_read_all,
icm42670_read_accel and icm42670_read_gyro. In particular, when in
icm42670_read_all the fetch and the acceleration get succeed and the gyroscope
get fails, the result is non-zero and the record, accel fields included, is
unchanged. -/
theorem C4_failed_read_keeps_record (data : icm42670_data D) (w : World D) :
    ((icm42670_read_all data w).1 ≠ 0 →
      (icm42670_read_all data w).1 < 0 ∧ (icm42670_read_all data w).2.1 = data) ∧
    ((icm42670_read_accel data w).1 ≠ 0 →
      (icm42670_read_accel data w).1 < 0 ∧ (icm42670_read_accel data w).2.1 = data) ∧
    ((icm42670_read_gyro data w).1 ≠ 0 →
      (icm42670_read_gyro data w).1 < 0 ∧ (icm42670_read_gyro data w).2.1 = data) ∧
    (0 ≤ w.fetch 0 → 0 ≤ (w.chan_get 0 SENSOR_CHAN_ACCEL_XYZ).1 →
      (w.chan_get 1 SENSOR_CHAN_GYRO_XYZ).1 < 0 →
      (icm42670_read_all data w).1 ≠ 0 ∧ (icm42670_read_all data w).2.1 = data) := by
  refine ⟨?_, ?_, ?_, ?_⟩
  · by_cases h0 : w.fetch 0 < 0
    · rw [read_all_fetch_fail data w h0]
      exact fun _ => ⟨h0, rfl⟩
    · by_cases h1 : (w.chan_get 0 SENSOR_CHAN_ACCEL_XYZ).1 < 0
      · rw [read_all_accel_fail data w (by omega) h1]
        exact fun _ => ⟨h1, rfl⟩
      · by_cases h2 : (w.chan_get 1 SENSOR_CHAN_GYRO_XYZ).1 < 0
        · rw [read_all_gyro_fail data w (by omega) (by omega) h2]
          exact fun _ => ⟨h2, rfl⟩
        · rw [read_all_ok data w (by omega) (by omega) (by omega)]
          intro h
          exact absurd rfl h
  · by_cases h0 : w.fetch 0 < 0
    · rw [read_accel_fetch_fail data w h0]
      exact fun _ => ⟨h0, rfl⟩
    · by_cases h1 : (w.chan_get 0 SENSOR_CHAN_ACCEL_XYZ).1 < 0
      · rw [read_accel_get_fail data w (by omega) h1]
        exact fun _ => ⟨h1, rfl⟩
      · rw [read_accel_ok data w (by omega) (by omega)]
        intro h
        exact absurd rfl h
  · by_cases h0 : w.fetch 0 < 0
    · rw [read_gyro_fetch_fail data w h0]
      exact fun _ => ⟨h0, rfl⟩
    · by_cases h1 : (w.chan_get 0 SENSOR_CHAN_GYRO_XYZ).1 < 0
      · rw [read_gyro_get_fail data w (by omega) h1]
        exact fun _ => ⟨h1, rfl⟩
      · rw [read_gyro_ok data w (by omega) (by omega)]
        intro h
        exact absurd rfl h
  · intro h0 h1 h2
    rw [read_all_gyro_fail data w h0 h1 h2]
    exact ⟨by omega, rfl⟩

/-- Witness for C4: the acceleration get succeeds with values (1, -2, 3), the
gyroscope get fails with -7; read_all returns -7 and the record is the old
one. -/
theorem C4_failed_read_keeps_record_witness :
    (icm42670_read_all old_data second_get_fails).1 ≠ 0 ∧
    (icm42670_read_all old_data second_get_fails).2.1 = old_data :=
  (C4_failed_read_keeps_record old_data second_get_fails).2.2.2 (by decide) (by decide)
    (by decide)

/-- C5: when the fetch and both channel gets succeed (status not negative),
icm42670_read_all returns 0 and the record holds, in accel_x, accel_y, accel_z,
the subsystem's conversions of elements 0, 1, 2 of the acceleration channel
and, in gyro_x, gyro_y, gyro_z, the conversions of elements 0, 1, 2 of the
gyroscope channel, whatever the record held before. -/
theorem C5_read_all_stores_conversions (data : icm42670_data D) (w : World D)
    (h0 : 0 ≤ w.fetch 0) (h1 : 0 ≤ (w.chan_get 0 SENSOR_CHAN_ACCEL_XYZ).1)
    (h2 : 0 ≤ (w.chan_get 1 SENSOR_CHAN_GYRO_XYZ).1) :
    (icm42670_read_all data w).1 = 0 ∧
    (icm42670_read_all data w).2.1 =
      { accel_x := w.to_double (w.chan_get 0 SENSOR_CHAN_ACCEL_XYZ).2.1
        accel_y := w.to_double (w.chan_get 0 SENSOR_CHAN_ACCEL_XYZ).2.2.1
        accel_z := w.to_double (w.chan_get 0 SENSOR_CHAN_ACCEL_XYZ).2.2.2
        gyro_x := w.to_double (w.chan_get 1 SENSOR_CHAN_GYRO_XYZ).2.1
        gyro_y := w.to_double (w.chan_get 1 SENSOR_CHAN_GYRO_XYZ).2.2.1
        gyro_z := w.to_double (w.chan_get 1 SENSOR_CHAN_GYRO_XYZ).2.2.2 } := by
  rw [read_all_ok data w h0 h1 h2]
  exact ⟨rfl, rfl⟩

/-- Witness for C5: conversions (1, -2, 3) for acceleration and (4, -5, 6)
for angular rate are returned as exactly those six field values. -/
theorem C5_read_all_stores_conversions_witness :
    (0 ≤ steady_world.fetch 0 ∧ 0 ≤ (steady_world.chan_get 0 SENSOR_CHAN_ACCEL_XYZ).1 ∧
      0 ≤ (steady_world.chan_get 1 SENSOR_CHAN_GYRO_XYZ).1) ∧
    (icm42670_read_all old_data steady_world).1 = 0 ∧
    (icm42670_read_all old_data steady_world).2.1 =
      { accel_x := 1, accel_y := -2, accel_z := 3, gyro_x := 4, gyro_y := -5, gyro_z := 6 } :=
  ⟨⟨by decide, by decide, by decide⟩,
    C5_read_all_stores_conversions old_data steady_world (by decide) (by decide) (by decide)⟩

/-! ## C6: the rate configurators -/

theorem int32_of_uint16 (rate : Nat) (h : rate < 65536) :
    int32_t (uint16_t rate) = (rate : Int) := by
  unfold int32_t uint16_t
  have h1 : rate % 2 ^ 16 = rate := Nat.mod_eq_of_lt (by norm_num; exact h)
  rw [h1]
  omega

theorem set_accel_rate_eq (rate : Nat) (h : rate < 65536) (w : World D) :
    icm42670_set_accel_rate rate w =
      (if w.attr_set 0 SENSOR_CHAN_ACCEL_XYZ SENSOR_ATTR_SAMPLING_FREQUENCY ⟨rate, 0⟩ < 0 then
         w.attr_set 0 SENSOR_CHAN_ACCEL_XYZ SENSOR_ATTR_SAMPLING_FREQUENCY ⟨rate, 0⟩
       else 0,
       { w with
         attr_set := fun i => w.attr_set (i + 1)
         trace := w.trace ++
           (Event.sensor_attr_set SENSOR_CHAN_ACCEL_XYZ SENSOR_ATTR_SAMPLING_FREQUENCY ⟨rate, 0⟩ ::
            if w.attr_set 0 SENSOR_CHAN_ACCEL_XYZ SENSOR_ATTR_SAMPLING_FREQUENCY ⟨rate, 0⟩ < 0 then
              [Event.printk (Msg.accel_rate_failed
                (w.attr_set 0 SENSOR_CHAN_ACCEL_XYZ SENSOR_ATTR_SAMPLING_FREQUENCY ⟨rate, 0⟩))]
            else []) }) := by
  unfold icm42670_set_accel_rate
  rw [int32_of_uint16 rate h]
  by_cases hs : w.attr_set 0 SENSOR_CHAN_ACCEL_XYZ SENSOR_ATTR_SAMPLING_FREQUENCY ⟨rate, 0⟩ < 0
  · simp [hs]
  · simp [hs]

theorem set_gyro_rate_eq (rate : Nat) (h : rate < 65536) (w : World D) :
    icm42670_set_gyro_rate rate w =
      (if w.attr_set 0 SENSOR_CHAN_GYRO_XYZ SENSOR_ATTR_SAMPLING_FREQUENCY ⟨rate, 0⟩ < 0 then
         w.attr_set 0 SENSOR_CHAN_GYRO_XYZ SENSOR_ATTR_SAMPLING_FREQUENCY ⟨rate, 0⟩
       else 0,
       { w with
         attr_set := fun i => w.attr_set (i + 1)
         trace := w.trace ++
           (Event.sensor_attr_set SENSOR_CHAN_GYRO_XYZ SENSOR_ATTR_SAMPLING_FREQUENCY ⟨rate, 0⟩ ::
            if w.attr_set 0 SENSOR_CHAN_GYRO_XYZ SENSOR_ATTR_SAMPLING_FREQUENCY ⟨rate, 0⟩ < 0 then
              [Event.printk (Msg.gyro_rate_failed
                (w.attr_set 0 SENSOR_CHAN_GYRO_XYZ SENSOR_ATTR_SAMPLING_FREQUENCY ⟨rate, 0⟩))]
            else []) }) := by
  unfold icm42670_set_gyro_rate
  rw [int32_of_uint16 rate h]
  by_cases hs : w.attr_set 0 SENSOR_CHAN_GYRO_XYZ SENSOR_ATTR_SAMPLING_FREQUENCY ⟨rate, 0⟩ < 0
  · simp [hs]
  · simp [hs]

theorem attr_sets_cons_tail (chan : sensor_channel) (attr : sensor_attribute)
    (val : sensor_value) (c : Prop) [Decidable c] (m : Msg) :
    attr_sets (Event.sensor_attr_set chan attr val ::
      (if c then [Event.printk m] else [] : List (Event D))) = [(chan, attr, val)] := by
  by_cases hc : c <;> simp [hc, attr_sets]

/-- C6: for every rate from 0 to 65535, icm42670_set_accel_rate makes exactly
one attribute-set call, on the three-axis acceleration channel, for the
sampling-frequency attribute, with integer part equal to the rate and
fractional part 0; a negative status from the subsystem is returned as it is,
any other status gives 0; a second call with the same rate makes the same
attribute-set call a second time. icm42670_set_gyro_rate does the same on the
three-axis gyroscope channel. -/
theorem C6_set_rate_single_call (rate : Nat) (hrate : rate < 65536) (w : World D) :
    (attr_sets (icm42670_set_accel_rate rate w).2.trace =
        attr_sets w.trace ++
          [(SENSOR_CHAN_ACCEL_XYZ, SENSOR_ATTR_SAMPLING_FREQUENCY, ⟨rate, 0⟩)] ∧
      (w.attr_set 0 SENSOR_CHAN_ACCEL_XYZ SENSOR_ATTR_SAMPLING_FREQUENCY ⟨rate, 0⟩ < 0 →
        (icm42670_set_accel_rate rate w).1 =
          w.attr_set 0 SENSOR_CHAN_ACCEL_XYZ SENSOR_ATTR_SAMPLING_FREQUENCY ⟨rate, 0⟩) ∧
      (0 ≤ w.attr_set 0 SENSOR_CHAN_ACCEL_XYZ SENSOR_ATTR_SAMPLING_FREQUENCY ⟨rate, 0⟩ →
        (icm42670_set_accel_rate rate w).1 = 0) ∧
      attr_sets (icm42670_set_accel_rate rate (icm42670_set_accel_rate rate w).2).2.trace =
        attr_sets w.trace ++
          [(SENSOR_CHAN_ACCEL_XYZ, SENSOR_ATTR_SAMPLING_FREQUENCY, ⟨rate, 0⟩),
           (SENSOR_CHAN_ACCEL_XYZ, SENSOR_ATTR_SAMPLING_FREQUENCY, ⟨rate, 0⟩)]) ∧
    (attr_sets (icm42670_set_gyro_rate rate w).2.trace =
        attr_sets w.trace ++
          [(SENSOR_CHAN_GYRO_XYZ, SENSOR_ATTR_SAMPLING_FREQUENCY, ⟨rate, 0⟩)] ∧
      (w.attr_set 0 SENSOR_CHAN_GYRO_XYZ SENSOR_ATTR_SAMPLING_FREQUENCY ⟨rate, 0⟩ < 0 →
        (icm42670_set_gyro_rate rate w).1 =
          w.attr_set 0 SENSOR_CHAN_GYRO_XYZ SENSOR_ATTR_SAMPLING_FREQUENCY ⟨rate, 0⟩) ∧
      (0 ≤ w.attr_set 0 SENSOR_CHAN_GYRO_XYZ SENSOR_ATTR_SAMPLING_FREQUENCY ⟨rate, 0⟩ →
        (icm42670_set_gyro_rate rate w).1 = 0) ∧
      attr_sets (icm42670_set_gyro_rate rate (icm42670_set_gyro_rate rate w).2).2.trace =
        attr_sets w.trace ++
          [(SENSOR_CHAN_GYRO_XYZ, SENSOR_ATTR_SAMPLING_FREQUENCY, ⟨rate, 0⟩),
           (SENSOR_CHAN_GYRO_XYZ, SENSOR_ATTR_SAMPLING_FREQUENCY, ⟨rate, 0⟩)]) := by
  constructor
  · rw [set_accel_rate_eq rate hrate (icm42670_set_accel_rate rate w).2,
      set_accel_rate_eq rate hrate w]
    refine ⟨?_, ?_, ?_, ?_⟩
    · simp only [attr_sets_append, attr_sets_cons_tail]
    · intro hs
      simp [hs]
    · intro hs
      have hn : ¬ w.attr_set 0 SENSOR_CHAN_ACCEL_XYZ SENSOR_ATTR_SAMPLING_FREQUENCY ⟨rate, 0⟩ < 0 := by
        omega
      simp [hn]
    · simp only [attr_sets_append, attr_sets_cons_tail, List.append_assoc, List.singleton_append]
  · rw [set_gyro_rate_eq rate hrate (icm42670_set_gyro_rate rate w).2,
      set_gyro_rate_eq rate hrate w]
    refine ⟨?_, ?_, ?_, ?_⟩
    · simp only [attr_sets_append, attr_sets_cons_tail]
    · intro hs
      simp [hs]
    · intro hs
      have hn : ¬ w.attr_set 0 SENSOR_CHAN_GYRO_XYZ SENSOR_ATTR_SAMPLING_FREQUENCY ⟨rate, 0⟩ < 0 := by
        omega
      simp [hn]
    · simp only [attr_sets_append, attr_sets_cons_tail, List.append_assoc, List.singleton_append]

/-- Witness for C6: rate 100 on a subsystem that rejects with -22: one
attribute-set call carrying 100 and fractional part 0, and -22 returned. -/
theorem C6_set_rate_single_call_witness :
    100 < 65536 ∧
    attr_sets (icm42670_set_accel_rate 100 rejecting_world).2.trace =
      [(SENSOR_CHAN_ACCEL_XYZ, SENSOR_ATTR_SAMPLING_FREQUENCY, ⟨100, 0⟩)] ∧
    (icm42670_set_accel_rate 100 rejecting_world).1 = -22 :=
  ⟨by decide, (C6_set_rate_single_call 100 (by decide) rejecting_world).1.1,
    (C6_set_rate_single_call 100 (by decide) rejecting_world).1.2.1 (by decide)⟩

/-! ## main.c: setup and polling loop -/

theorem ksleeps_append (a b : List (Event D)) : ksleeps (a ++ b) = ksleeps a ++ ksleeps b := by
  induction a with
  | nil => simp [ksleeps]
  | cons e t ih => cases e <;> simp [ksleeps, ih]

theorem printf_lines_append (a b : List (Event D)) :
    printf_lines (a ++ b) = printf_lines a ++ printf_lines b := by
  induction a with
  | nil => simp [printf_lines]
  | cons e t ih => cases e <;> simp [printf_lines, ih]

theorem init_events (ENODEV : Int) (resolved : Bool) (w : World D) :
    ∃ es : List (Event D),
      (icm42670_init ENODEV resolved w).2.trace = w.trace ++ es ∧
      attr_sets es = [] ∧ fetches es = 0 ∧ channel_gets es = [] := by
  cases resolved with
  | false =>
    refine ⟨[Event.printk Msg.device_not_found], ?_, ?_, ?_, ?_⟩ <;>
      simp [icm42670_init, attr_sets, fetches, channel_gets]
  | true =>
    by_cases h : ∃ i, i < MAX_INIT_ATTEMPTS ∧ w.ready i = true
    · obtain ⟨k, hk, hr, hf⟩ := exists_first_ready w.ready MAX_INIT_ATTEMPTS h
      rw [init_ready_at ENODEV w k hk hr hf]
      refine ⟨_, rfl, ?_, ?_, ?_⟩
      · simp [attr_sets_append, attr_sets_retry_events, attr_sets]
      · simp only [fetches_append, fetches_retry_events]
        simp [fetches]
      · simp [channel_gets_append, channel_gets_retry_events, channel_gets]
    · have hf : ∀ i, i < MAX_INIT_ATTEMPTS → w.ready i = false := by
        intro i hi
        by_contra hr
        exact h ⟨i, hi, by simpa using hr⟩
      rw [init_never_ready ENODEV w hf]
      refine ⟨_, rfl, ?_, ?_, ?_⟩
      · simp [attr_sets_append, attr_sets_retry_events, attr_sets]
      · simp only [fetches_append, fetches_retry_events]
        simp [fetches]
      · simp [channel_gets_append, channel_gets_retry_events, channel_gets]

theorem read_all_events (data : icm42670_data D) (w : World D) :
    ∃ es : List (Event D),
      (icm42670_read_all data w).2.2.trace = w.trace ++ es ∧
      fetches es = 1 ∧ attr_sets es = [] ∧ ksleeps es = [] ∧ printf_lines es = [] := by
  by_cases h0 : w.fetch 0 < 0
  · rw [read_all_fetch_fail data w h0]
    exact ⟨_, rfl, by simp [fetches], by simp [attr_sets], by simp [ksleeps],
      by simp [printf_lines]⟩
  · by_cases h1 : (w.chan_get 0 SENSOR_CHAN_ACCEL_XYZ).1 < 0
    · rw [read_all_accel_fail data w (by omega) h1]
      exact ⟨_, rfl, by simp [fetches], by simp [attr_sets], by simp [ksleeps],
        by simp [printf_lines]⟩
    · by_cases h2 : (w.chan_get 1 SENSOR_CHAN_GYRO_XYZ).1 < 0
      · rw [read_all_gyro_fail data w (by omega) (by omega) h2]
        exact ⟨_, rfl, by simp [fetches], by simp [attr_sets], by simp [ksleeps],
          by simp [printf_lines]⟩
      · rw [read_all_ok data w (by omega) (by omega) (by omega)]
        exact ⟨_, rfl, by simp [fetches], by simp [attr_sets], by simp [ksleeps],
          by simp [printf_lines]⟩

theorem main_iteration_trace (sensor_data : icm42670_data D) (w : World D) :
    (main_iteration sensor_data w).1 = (icm42670_read_all sensor_data w).2.1 ∧
    (main_iteration sensor_data w).2.trace =
      (icm42670_read_all sensor_data w).2.2.trace ++
        ((if (icm42670_read_all sensor_data w).1 = 0 then
            [Event.printf_accel (icm42670_read_all sensor_data w).2.1.accel_x
               (icm42670_read_all sensor_data w).2.1.accel_y
               (icm42670_read_all sensor_data w).2.1.accel_z,
             Event.printf_gyro (icm42670_read_all sensor_data w).2.1.gyro_x
               (icm42670_read_all sensor_data w).2.1.gyro_y
               (icm42670_read_all sensor_data w).2.1.gyro_z]
          else []) ++ [Event.k_sleep_msec 1000]) := by
  unfold main_iteration
  by_cases h : (icm42670_read_all sensor_data w).1 = 0
  · simp [h]
  · simp [h]

theorem main_iteration_events (sensor_data : icm42670_data D) (w : World D) :
    ∃ es : List (Event D),
      (main_iteration sensor_data w).2.trace = w.trace ++ es ∧
      fetches es = 1 ∧ attr_sets es = [] ∧ ksleeps es = [1000] := by
  obtain ⟨es, hes, hf, ha, hk, _⟩ := read_all_events sensor_data w
  rw [(main_iteration_trace sensor_data w).2, hes]
  by_cases h : (icm42670_read_all sensor_data w).1 = 0
  · refine ⟨_, List.append_assoc _ _ _, ?_, ?_, ?_⟩
    · rw [fetches_append, hf]; simp [h, fetches]
    · rw [attr_sets_append, ha]; simp [h, attr_sets]
    · rw [ksleeps_append, hk]; simp [h, ksleeps]
  · refine ⟨_, List.append_assoc _ _ _, ?_, ?_, ?_⟩
    · rw [fetches_append, hf]; simp [h, fetches]
    · rw [attr_sets_append, ha]; simp [h, attr_sets]
    · rw [ksleeps_append, hk]; simp [h, ksleeps]

theorem main_loop_succ (n : Nat) (sensor_data : icm42670_data D) (w : World D) :
    main_loop (n + 1) sensor_data w =
      main_loop n (main_iteration sensor_data w).1 (main_iteration sensor_data w).2 := rfl

theorem main_loop_events (n : Nat) :
    ∀ (sensor_data : icm42670_data D) (w : World D),
      ∃ es : List (Event D),
        (main_loop n sensor_data w).2.trace = w.trace ++ es ∧
        fetches es = n ∧ attr_sets es = [] ∧ ksleeps es = List.replicate n 1000 := by
  induction n with
  | zero =>
    intro sensor_data w
    exact ⟨[], by simp [main_loop], by simp [fetches], by simp [attr_sets], by simp [ksleeps]⟩
  | succ n ih =>
    intro sensor_data w
    obtain ⟨e1, h1, hf1, ha1, hk1⟩ := main_iteration_events sensor_data w
    obtain ⟨e2, h2, hf2, ha2, hk2⟩ :=
      ih (main_iteration sensor_data w).1 (main_iteration sensor_data w).2
    rw [main_loop_succ, h2, h1]
    refine ⟨e1 ++ e2, List.append_assoc _ _ _, ?_, ?_, ?_⟩
    · rw [fetches_append, hf1, hf2]; omega
    · rw [attr_sets_append, ha1, ha2]; rfl
    · rw [ksleeps_append, hk1, hk2]; simp [List.replicate_succ]

theorem main_eq (ENODEV : Int) (resolved : Bool) (n : Nat) (sensor_data : icm42670_data D)
    (w : World D) :
    main ENODEV resolved n sensor_data w =
      if (main_init ENODEV resolved w).1 ≠ 0 then
        (true, printk Msg.main_init_failed (main_init ENODEV resolved w).2)
      else if (main_accel_rate ENODEV resolved w).1 ≠ 0 then
        (true, (main_accel_rate ENODEV resolved w).2)
      else if (main_gyro_rate ENODEV resolved w).1 ≠ 0 then
        (true, (main_gyro_rate ENODEV resolved w).2)
      else
        (false, (main_loop n sensor_data (main_gyro_rate ENODEV resolved w).2).2) := rfl

theorem set_accel_rate_events (rate : Nat) (h : rate < 65536) (w : World D) :
    ∃ tail : List (Event D),
      (icm42670_set_accel_rate rate w).2.trace =
        w.trace ++ Event.sensor_attr_set SENSOR_CHAN_ACCEL_XYZ SENSOR_ATTR_SAMPLING_FREQUENCY
          ⟨rate, 0⟩ :: tail ∧
      attr_sets tail = [] ∧ fetches tail = 0 ∧
      ((icm42670_set_accel_rate rate w).1 = 0 → tail = []) := by
  rw [set_accel_rate_eq rate h w]
  by_cases hs : w.attr_set 0 SENSOR_CHAN_ACCEL_XYZ SENSOR_ATTR_SAMPLING_FREQUENCY ⟨rate, 0⟩ < 0
  · refine ⟨_, rfl, ?_, ?_, ?_⟩
    · simp [hs, attr_sets]
    · simp [hs, fetches]
    · simp only [hs, if_true]
      intro h0
      omega
  · refine ⟨_, rfl, ?_, ?_, ?_⟩ <;> simp [hs, attr_sets, fetches]

theorem set_gyro_rate_events (rate : Nat) (h : rate < 65536) (w : World D) :
    ∃ tail : List (Event D),
      (icm42670_set_gyro_rate rate w).2.trace =
        w.trace ++ Event.sensor_attr_set SENSOR_CHAN_GYRO_XYZ SENSOR_ATTR_SAMPLING_FREQUENCY
          ⟨rate, 0⟩ :: tail ∧
      attr_sets tail = [] ∧ fetches tail = 0 ∧
      ((icm42670_set_gyro_rate rate w).1 = 0 → tail = []) := by
  rw [set_gyro_rate_eq rate h w]
  by_cases hs : w.attr_set 0 SENSOR_CHAN_GYRO_XYZ SENSOR_ATTR_SAMPLING_FREQUENCY ⟨rate, 0⟩ < 0
  · refine ⟨_, rfl, ?_, ?_, ?_⟩
    · simp [hs, attr_sets]
    · simp [hs, fetches]
    · simp only [hs, if_true]
      intro h0
      omega
  · refine ⟨_, rfl, ?_, ?_, ?_⟩ <;> simp [hs, attr_sets, fetches]

theorem attr_sets_cons_attr (chan : sensor_channel) (attr : sensor_attribute)
    (val : sensor_value) (t : List (Event D)) :
    attr_sets (Event.sensor_attr_set chan attr val :: t) = (chan, attr, val) :: attr_sets t := by
  simp [attr_sets]

theorem fetches_cons_attr (chan : sensor_channel) (attr : sensor_attribute)
    (val : sensor_value) (t : List (Event D)) :
    fetches (Event.sensor_attr_set chan attr val :: t) = fetches t := by
  simp [fetches]

theorem fetches_nil : fetches ([] : List (Event D)) = 0 := rfl

theorem fetches_cons_printk (m : Msg) (t : List (Event D)) :
    fetches (Event.printk m :: t) = fetches t := by
  simp [fetches]

theorem attr_sets_cons_printk (m : Msg) (t : List (Event D)) :
    attr_sets (Event.printk m :: t) = attr_sets t := by
  simp [attr_sets]

/-- C9: main treats setup errors as fatal and performs setup in a fixed
order. If its icm42670_init call returns non-zero, main returns having made no
attribute-set call and no sample fetch. If init returns 0 and the
accelerometer rate set returns non-zero, main returns after that single
attribute-set call (acceleration channel, value 100) and no fetch. If the
gyroscope rate set returns non-zero, main returns after the two attribute-set
calls (acceleration 100, then gyroscope 100) and no fetch. If all three return
0, main does not return and its trace is: the start-up line, the events of
init, the acceleration set of 100, the gyroscope set of 100, then the loop
events holding one fetch per pass and no attribute set. Hence whenever main
has made a fetch, init and both rate sets returned 0 and the attribute-set
calls of the whole run are exactly acceleration 100 then gyroscope 100. -/
theorem C9_main_setup_fatal_and_ordered (ENODEV : Int) (resolved : Bool) (n : Nat)
    (sensor_data : icm42670_data D) (w : World D) :
    ((main_init ENODEV resolved w).1 ≠ 0 →
      (main ENODEV resolved n sensor_data w).1 = true ∧
      attr_sets (main ENODEV resolved n sensor_data w).2.trace = attr_sets w.trace ∧
      fetches (main ENODEV resolved n sensor_data w).2.trace = fetches w.trace) ∧
    ((main_init ENODEV resolved w).1 = 0 → (main_accel_rate ENODEV resolved w).1 ≠ 0 →
      (main ENODEV resolved n sensor_data w).1 = true ∧
      attr_sets (main ENODEV resolved n sensor_data w).2.trace =
        attr_sets w.trace ++
          [(SENSOR_CHAN_ACCEL_XYZ, SENSOR_ATTR_SAMPLING_FREQUENCY, ⟨100, 0⟩)] ∧
      fetches (main ENODEV resolved n sensor_data w).2.trace = fetches w.trace) ∧
    ((main_init ENODEV resolved w).1 = 0 → (main_accel_rate ENODEV resolved w).1 = 0 →
      (main_gyro_rate ENODEV resolved w).1 ≠ 0 →
      (main ENODEV resolved n sensor_data w).1 = true ∧
      attr_sets (main ENODEV resolved n sensor_data w).2.trace =
        attr_sets w.trace ++
          [(SENSOR_CHAN_ACCEL_XYZ, SENSOR_ATTR_SAMPLING_FREQUENCY, ⟨100, 0⟩),
           (SENSOR_CHAN_GYRO_XYZ, SENSOR_ATTR_SAMPLING_FREQUENCY, ⟨100, 0⟩)] ∧
      fetches (main ENODEV resolved n sensor_data w).2.trace = fetches w.trace) ∧
    ((main_init ENODEV resolved w).1 = 0 → (main_accel_rate ENODEV resolved w).1 = 0 →
      (main_gyro_rate ENODEV resolved w).1 = 0 →
      (main ENODEV resolved n sensor_data w).1 = false ∧
      ∃ init_es loop_es : List (Event D),
        (main_init ENODEV resolved w).2.trace =
          w.trace ++ Event.printk Msg.starting_application :: init_es ∧
        (main ENODEV resolved n sensor_data w).2.trace =
          (main_init ENODEV resolved w).2.trace ++
            [Event.sensor_attr_set SENSOR_CHAN_ACCEL_XYZ SENSOR_ATTR_SAMPLING_FREQUENCY ⟨100, 0⟩,
             Event.sensor_attr_set SENSOR_CHAN_GYRO_XYZ SENSOR_ATTR_SAMPLING_FREQUENCY ⟨100, 0⟩]
            ++ loop_es ∧
        attr_sets init_es = [] ∧ fetches init_es = 0 ∧
        attr_sets loop_es = [] ∧ fetches loop_es = n) ∧
    (fetches w.trace < fetches (main ENODEV resolved n sensor_data w).2.trace →
      (main_init ENODEV resolved w).1 = 0 ∧ (main_accel_rate ENODEV resolved w).1 = 0 ∧
      (main_gyro_rate ENODEV resolved w).1 = 0 ∧
      attr_sets (main ENODEV resolved n sensor_data w).2.trace =
        attr_sets w.trace ++
          [(SENSOR_CHAN_ACCEL_XYZ, SENSOR_ATTR_SAMPLING_FREQUENCY, ⟨100, 0⟩),
           (SENSOR_CHAN_GYRO_XYZ, SENSOR_ATTR_SAMPLING_FREQUENCY, ⟨100, 0⟩)]) := by
  obtain ⟨ies, hi, hia, hif, _⟩ :=
    init_events ENODEV resolved (printk Msg.starting_application w)
  obtain ⟨ta, hta, htaa, htaf, hta0⟩ :=
    set_accel_rate_events 100 (by norm_num) (main_init ENODEV resolved w).2
  obtain ⟨tg, htg, htga, htgf, htg0⟩ :=
    set_gyro_rate_events 100 (by norm_num) (main_accel_rate ENODEV resolved w).2
  obtain ⟨les, hl, hlf, hla, _⟩ :=
    main_loop_events n sensor_data (main_gyro_rate ENODEV resolved w).2
  have hi2 : (main_init ENODEV resolved w).2.trace =
      w.trace ++ Event.printk Msg.starting_application :: ies := by
    unfold main_init
    rw [hi]
    simp
  have hta2 : (main_accel_rate ENODEV resolved w).2.trace =
      (main_init ENODEV resolved w).2.trace ++
        Event.sensor_attr_set SENSOR_CHAN_ACCEL_XYZ SENSOR_ATTR_SAMPLING_FREQUENCY
          ⟨100, 0⟩ :: ta := hta
  have htg2 : (main_gyro_rate ENODEV resolved w).2.trace =
      (main_accel_rate ENODEV resolved w).2.trace ++
        Event.sensor_attr_set SENSOR_CHAN_GYRO_XYZ SENSOR_ATTR_SAMPLING_FREQUENCY
          ⟨100, 0⟩ :: tg := htg
  have c1 : (main_init ENODEV resolved w).1 ≠ 0 →
      (main ENODEV resolved n sensor_data w).1 = true ∧
      attr_sets (main ENODEV resolved n sensor_data w).2.trace = attr_sets w.trace ∧
      fetches (main ENODEV resolved n sensor_data w).2.trace = fetches w.trace := by
    intro h1
    rw [main_eq, if_pos h1]
    refine ⟨rfl, ?_, ?_⟩
    · simp [hi2, attr_sets_append, attr_sets_cons_printk, hia, attr_sets]
    · simp [hi2, fetches_append, fetches_cons_printk, hif, fetches_nil]
  have c2 : (main_init ENODEV resolved w).1 = 0 → (main_accel_rate ENODEV resolved w).1 ≠ 0 →
      (main ENODEV resolved n sensor_data w).1 = true ∧
      attr_sets (main ENODEV resolved n sensor_data w).2.trace =
        attr_sets w.trace ++
          [(SENSOR_CHAN_ACCEL_XYZ, SENSOR_ATTR_SAMPLING_FREQUENCY, ⟨100, 0⟩)] ∧
      fetches (main ENODEV resolved n sensor_data w).2.trace = fetches w.trace := by
    intro h1 h2
    rw [main_eq, if_neg (not_not.mpr h1), if_pos h2]
    refine ⟨rfl, ?_, ?_⟩
    · simp [hta2, hi2, attr_sets_append, attr_sets_cons_printk, attr_sets_cons_attr, hia, htaa]
    · simp [hta2, hi2, fetches_append, fetches_cons_printk, fetches_cons_attr, hif, htaf,
        fetches_nil]
  have c3 : (main_init ENODEV resolved w).1 = 0 → (main_accel_rate ENODEV resolved w).1 = 0 →
      (main_gyro_rate ENODEV resolved w).1 ≠ 0 →
      (main ENODEV resolved n sensor_data w).1 = true ∧
      attr_sets (main ENODEV resolved n sensor_data w).2.trace =
        attr_sets w.trace ++
          [(SENSOR_CHAN_ACCEL_XYZ, SENSOR_ATTR_SAMPLING_FREQUENCY, ⟨100, 0⟩),
           (SENSOR_CHAN_GYRO_XYZ, SENSOR_ATTR_SAMPLING_FREQUENCY, ⟨100, 0⟩)] ∧
      fetches (main ENODEV resolved n sensor_data w).2.trace = fetches w.trace := by
    intro h1 h2 h3
    rw [main_eq, if_neg (not_not.mpr h1), if_neg (not_not.mpr h2), if_pos h3]
    refine ⟨rfl, ?_, ?_⟩
    · simp [htg2, hta2, hi2, attr_sets_append, attr_sets_cons_printk, attr_sets_cons_attr, hia,
        htaa, htga]
    · simp [htg2, hta2, hi2, fetches_append, fetches_cons_printk, fetches_cons_attr, hif, htaf,
        htgf, fetches_nil]
  have c4 : (main_init ENODEV resolved w).1 = 0 → (main_accel_rate ENODEV resolved w).1 = 0 →
      (main_gyro_rate ENODEV resolved w).1 = 0 →
      (main ENODEV resolved n sensor_data w).1 = false ∧
      (main ENODEV resolved n sensor_data w).2.trace =
          (main_init ENODEV resolved w).2.trace ++
            [Event.sensor_attr_set SENSOR_CHAN_ACCEL_XYZ SENSOR_ATTR_SAMPLING_FREQUENCY ⟨100, 0⟩,
             Event.sensor_attr_set SENSOR_CHAN_GYRO_XYZ SENSOR_ATTR_SAMPLING_FREQUENCY ⟨100, 0⟩]
            ++ les := by
    intro h1 h2 h3
    rw [main_eq, if_neg (not_not.mpr h1), if_neg (not_not.mpr h2), if_neg (not_not.mpr h3)]
    refine ⟨rfl, ?_⟩
    have e1 : ta = [] := hta0 h2
    have e2 : tg = [] := htg0 h3
    simp only [hl, htg2, hta2, e1, e2]
    simp
  refine ⟨c1, c2, c3, ?_, ?_⟩
  · intro h1 h2 h3
    exact ⟨(c4 h1 h2 h3).1, ies, les, hi2, (c4 h1 h2 h3).2, hia, hif, hla, hlf⟩
  · intro hlt
    by_cases h1 : (main_init ENODEV resolved w).1 = 0
    · by_cases h2 : (main_accel_rate ENODEV resolved w).1 = 0
      · by_cases h3 : (main_gyro_rate ENODEV resolved w).1 = 0
        · refine ⟨h1, h2, h3, ?_⟩
          rw [(c4 h1 h2 h3).2, hi2]
          simp [attr_sets_append, attr_sets_cons_printk, attr_sets_cons_attr, hia, hla, attr_sets]
        · have := (c3 h1 h2 h3).2.2
          omega
      · have := (c2 h1 h2).2.2
        omega
    · have := (c1 h1).2.2
      omega

theorem scenario_setup :
    (main_init 19 true scenario_world).1 = 0 ∧
    (main_accel_rate 19 true scenario_world).1 = 0 ∧
    (main_gyro_rate 19 true scenario_world).1 = 0 := by
  have hinit := init_ready_at 19 (printk Msg.starting_application scenario_world) 2
    (by decide) (by rfl) (by decide)
  refine ⟨?_, ?_, ?_⟩
  · unfold main_init
    rw [hinit]
  · unfold main_accel_rate main_init
    rw [hinit]
    rfl
  · unfold main_gyro_rate main_accel_rate main_init
    rw [hinit]
    rfl

/-- Witness for C9: with an unresolved device main returns without any
attribute set or fetch; in the end-to-end scenario (ready on the third check,
both rates accepted) main is still running after three passes. -/
theorem C9_main_setup_fatal_and_ordered_witness :
    ((main 19 false 3 old_data quiet_world).1 = true ∧
      attr_sets (main 19 false 3 old_data quiet_world).2.trace = [] ∧
      fetches (main 19 false 3 old_data quiet_world).2.trace = 0) ∧
    (main 19 true 3 old_data scenario_world).1 = false :=
  ⟨(C9_main_setup_fatal_and_ordered 19 false 3 old_data quiet_world).1 (by decide),
    ((C9_main_setup_fatal_and_ordered 19 true 3 old_data scenario_world).2.2.2.1
      scenario_setup.1 scenario_setup.2.1 scenario_setup.2.2).1⟩

/-! ## C10: the polling loop -/

theorem main_iteration_ok (sensor_data : icm42670_data D) (w : World D) (h0 : 0 ≤ w.fetch 0)
    (h1 : 0 ≤ (w.chan_get 0 SENSOR_CHAN_ACCEL_XYZ).1)
    (h2 : 0 ≤ (w.chan_get 1 SENSOR_CHAN_GYRO_XYZ).1) :
    main_iteration sensor_data w =
      ({ accel_x := w.to_double (w.chan_get 0 SENSOR_CHAN_ACCEL_XYZ).2.1
         accel_y := w.to_double (w.chan_get 0 SENSOR_CHAN_ACCEL_XYZ).2.2.1
         accel_z := w.to_double (w.chan_get 0 SENSOR_CHAN_ACCEL_XYZ).2.2.2
         gyro_x := w.to_double (w.chan_get 1 SENSOR_CHAN_GYRO_XYZ).2.1
         gyro_y := w.to_double (w.chan_get 1 SENSOR_CHAN_GYRO_XYZ).2.2.1
         gyro_z := w.to_double (w.chan_get 1 SENSOR_CHAN_GYRO_XYZ).2.2.2 },
       { w with
         fetch := fun i => w.fetch (i + 1)
         chan_get := fun i => w.chan_get (i + 2)
         trace := w.trace ++
           [Event.sensor_sample_fetch, Event.sensor_channel_get SENSOR_CHAN_ACCEL_XYZ,
            Event.sensor_channel_get SENSOR_CHAN_GYRO_XYZ,
            Event.printf_accel (w.to_double (w.chan_get 0 SENSOR_CHAN_ACCEL_XYZ).2.1)
              (w.to_double (w.chan_get 0 SENSOR_CHAN_ACCEL_XYZ).2.2.1)
              (w.to_double (w.chan_get 0 SENSOR_CHAN_ACCEL_XYZ).2.2.2),
            Event.printf_gyro (w.to_double (w.chan_get 1 SENSOR_CHAN_GYRO_XYZ).2.1)
              (w.to_double (w.chan_get 1 SENSOR_CHAN_GYRO_XYZ).2.2.1)
              (w.to_double (w.chan_get 1 SENSOR_CHAN_GYRO_XYZ).2.2.2),
            Event.k_sleep_msec 1000] }) := by
  unfold main_iteration
  rw [read_all_ok sensor_data w h0 h1 h2]
  simp

theorem main_iteration_fetch_fail (sensor_data : icm42670_data D) (w : World D)
    (h : w.fetch 0 < 0) :
    main_iteration sensor_data w =
      (sensor_data,
       { w with
         fetch := fun i => w.fetch (i + 1)
         trace := w.trace ++
           [Event.sensor_sample_fetch, Event.printk (Msg.fetch_failed (w.fetch 0)),
            Event.k_sleep_msec 1000] }) := by
  unfold main_iteration
  rw [read_all_fetch_fail sensor_data w h]
  have hne : ¬ w.fetch 0 = 0 := by omega
  simp [hne]

theorem setup_events (ENODEV : Int) (resolved : Bool) (w : World D) :
    fetches (main_gyro_rate ENODEV resolved w).2.trace = fetches w.trace := by
  obtain ⟨ies, hi, _, hif, _⟩ :=
    init_events ENODEV resolved (printk Msg.starting_application w)
  obtain ⟨ta, hta, _, htaf, _⟩ :=
    set_accel_rate_events 100 (by norm_num) (main_init ENODEV resolved w).2
  obtain ⟨tg, htg, _, htgf, _⟩ :=
    set_gyro_rate_events 100 (by norm_num) (main_accel_rate ENODEV resolved w).2
  unfold main_gyro_rate
  rw [htg]
  unfold main_accel_rate
  rw [hta]
  unfold main_init
  rw [hi]
  simp [fetches_append, fetches_cons_printk, fetches_cons_attr, hif, htaf, htgf, fetches_nil]

/-- C10: one pass of the polling loop makes exactly one read_all call (one
sample fetch), then prints the Accel line and the Gyro line, built from the
six values just read, exactly when that read returned 0, then sleeps 1000 ms.
The next pass follows whatever the read returned: n passes make n fetches and
n sleeps of 1000 ms, and once setup has succeeded main has not returned after
any number of passes. When the first read succeeds and the second fails at the
fetch, the first two passes print exactly one reading (two lines) and the
third pass issues its read. -/
theorem C10_polling_loop_continues (ENODEV : Int) (resolved : Bool) (n : Nat)
    (sensor_data : icm42670_data D) (w : World D) :
    ((main_iteration sensor_data w).1 = (icm42670_read_all sensor_data w).2.1 ∧
      (main_iteration sensor_data w).2.trace =
        (icm42670_read_all sensor_data w).2.2.trace ++
          ((if (icm42670_read_all sensor_data w).1 = 0 then
              [Event.printf_accel (icm42670_read_all sensor_data w).2.1.accel_x
                 (icm42670_read_all sensor_data w).2.1.accel_y
                 (icm42670_read_all sensor_data w).2.1.accel_z,
               Event.printf_gyro (icm42670_read_all sensor_data w).2.1.gyro_x
                 (icm42670_read_all sensor_data w).2.1.gyro_y
                 (icm42670_read_all sensor_data w).2.1.gyro_z]
            else []) ++ [Event.k_sleep_msec 1000]) ∧
      fetches (main_iteration sensor_data w).2.trace = fetches w.trace + 1 ∧
      ksleeps (main_iteration sensor_data w).2.trace = ksleeps w.trace ++ [1000]) ∧
    (main_loop (n + 1) sensor_data w =
        main_loop n (main_iteration sensor_data w).1 (main_iteration sensor_data w).2 ∧
      fetches (main_loop n sensor_data w).2.trace = fetches w.trace + n ∧
      ksleeps (main_loop n sensor_data w).2.trace = ksleeps w.trace ++ List.replicate n 1000) ∧
    ((main_init ENODEV resolved w).1 = 0 → (main_accel_rate ENODEV resolved w).1 = 0 →
      (main_gyro_rate ENODEV resolved w).1 = 0 →
      (main ENODEV resolved n sensor_data w).1 = false ∧
      fetches (main ENODEV resolved n sensor_data w).2.trace = fetches w.trace + n) ∧
    (0 ≤ w.fetch 0 → 0 ≤ (w.chan_get 0 SENSOR_CHAN_ACCEL_XYZ).1 →
      0 ≤ (w.chan_get 1 SENSOR_CHAN_GYRO_XYZ).1 → w.fetch 1 < 0 →
      printf_lines (main_loop 2 sensor_data w).2.trace =
        printf_lines w.trace ++
          [Event.printf_accel (w.to_double (w.chan_get 0 SENSOR_CHAN_ACCEL_XYZ).2.1)
             (w.to_double (w.chan_get 0 SENSOR_CHAN_ACCEL_XYZ).2.2.1)
             (w.to_double (w.chan_get 0 SENSOR_CHAN_ACCEL_XYZ).2.2.2),
           Event.printf_gyro (w.to_double (w.chan_get 1 SENSOR_CHAN_GYRO_XYZ).2.1)
             (w.to_double (w.chan_get 1 SENSOR_CHAN_GYRO_XYZ).2.2.1)
             (w.to_double (w.chan_get 1 SENSOR_CHAN_GYRO_XYZ).2.2.2)] ∧
      fetches (main_loop 2 sensor_data w).2.trace = fetches w.trace + 2 ∧
      fetches (main_loop 3 sensor_data w).2.trace = fetches w.trace + 3) := by
  have hloop : ∀ (m : Nat) (d : icm42670_data D) (v : World D),
      fetches (main_loop m d v).2.trace = fetches v.trace + m ∧
      ksleeps (main_loop m d v).2.trace = ksleeps v.trace ++ List.replicate m 1000 := by
    intro m d v
    obtain ⟨es, hes, hf, _, hk⟩ := main_loop_events m d v
    rw [hes, fetches_append, ksleeps_append, hf, hk]
    exact ⟨rfl, rfl⟩
  refine ⟨⟨(main_iteration_trace sensor_data w).1, (main_iteration_trace sensor_data w).2, ?_, ?_⟩,
    ⟨rfl, (hloop n sensor_data w).1, (hloop n sensor_data w).2⟩, ?_, ?_⟩
  · obtain ⟨es, hes, hf, _, _⟩ := main_iteration_events sensor_data w
    rw [hes, fetches_append, hf]
  · obtain ⟨es, hes, _, _, hk⟩ := main_iteration_events sensor_data w
    rw [hes, ksleeps_append, hk]
  · intro h1 h2 h3
    rw [main_eq, if_neg (not_not.mpr h1), if_neg (not_not.mpr h2), if_neg (not_not.mpr h3)]
    refine ⟨rfl, ?_⟩
    rw [(hloop n sensor_data (main_gyro_rate ENODEV resolved w).2).1, setup_events]
  · intro h0 h1 h2 h3
    refine ⟨?_, (hloop 2 sensor_data w).1, (hloop 3 sensor_data w).1⟩
    rw [main_loop_succ, main_loop_succ, main_iteration_ok sensor_data w h0 h1 h2]
    rw [main_iteration_fetch_fail _ _ (by simpa using h3)]
    simp [main_loop, printf_lines_append, printf_lines]

/-- Witness for C10: first read (1, -2, 3) and (4, -5, 6), second fetch
failing with -5: two passes print those two lines only, and the third pass
fetches. -/
theorem C10_polling_loop_continues_witness :
    printf_lines (main_loop 2 old_data second_fetch_fails).2.trace =
      [Event.printf_accel 1 (-2) 3, Event.printf_gyro 4 (-5) 6] ∧
    fetches (main_loop 2 old_data second_fetch_fails).2.trace = 2 ∧
    fetches (main_loop 3 old_data second_fetch_fails).2.trace = 3 :=
  (C10_polling_loop_continues 19 true 0 old_data second_fetch_fails).2.2.2 (by decide)
    (by decide) (by decide) (by decide)

end ICM42670
